import Mathlib

/-!
Verification development for the Monument Mixer AI repository.

The definitions below are a shallow embedding of the repository's
TypeScript source: the image codec (`fileToImagePayload`, the data-URL
formatting used by the uploader components), the generation clients
(`generateMonument` in `services/geminiService.ts`, `generateMonumentImage`
in the unnamed service module), the server-side `/api/generate` handler
branches (`api/generate.ts`), and the three-step workflow orchestrator of
the server-proxied `App.tsx` variant (state, mode switches, uploads,
generation handlers, navigation and reset).

External behaviour (the multimodal generation endpoint and the browser
`FileReader`) is modelled by explicit oracles: an `Api` function mapping a
request to either a transport failure or a structured response, and a
canonical data-URL read for files.  Asynchronous handlers are embedded as
atomic state transformers whose net effect on the component state matches
the source (including the `finally` clauses that clear the busy flags).
-/

/-- Extend the first group of a split with a leading character. -/
def splitConsHead (x : Char) : List (List Char) → List (List Char)
  | [] => [[x]]
  | g :: gs => (x :: g) :: gs

/-- Character-level splitting used to model JavaScript `String.split(',')`. -/
def splitCh (c : Char) : List Char → List (List Char)
  | [] => [[]]
  | x :: xs =>
    if x = c then
      [] :: splitCh c xs
    else
      splitConsHead x (splitCh c xs)

/-- Model of JavaScript `s.split(',')`. -/
def splitOnComma (s : String) : List String :=
  (splitCh ',' s.data).map (fun l => String.mk l)

/-- Model of JavaScript `s.split(',')[1]` (with `""` for a missing index). -/
def afterComma (s : String) : String :=
  (splitOnComma s).getD 1 ""

/-- Browser `File` as it is observed by this code base: its base64-encoded
contents, its declared MIME `type`, and its `name`. -/
structure MFile where
  base64 : String
  type : String
  name : String
deriving DecidableEq

/-- The `ImagePayload` record of the unnamed types module: base64 body plus
MIME type. -/
structure ImagePayload where
  base64 : String
  mimeType : String
deriving DecidableEq

/-- Canonical result of `FileReader.readAsDataURL` on a file. -/
def readAsDataURL (f : MFile) : String :=
  "data:" ++ f.type ++ ";base64," ++ f.base64

/-- Model of the `fileToBase64` helper of `App.tsx`: read the file as a data
URL and keep `split(',')[1]`. -/
def fileToBase64 (f : MFile) : String :=
  afterComma (readAsDataURL f)

/-- Model of `fileToImagePayload` (unnamed codec module): the successful
string read is stripped of its data-URL prefix via `split(',')[1]` and paired
with the file's declared MIME type. -/
def fileToImagePayload (f : MFile) : ImagePayload :=
  { base64 := afterComma (readAsDataURL f), mimeType := f.type }

/-- Model of the data-URL formatting `data:<mime>;base64,<data>` used by the
uploader components to display a stored payload. -/
def decodeToDataUrl (p : ImagePayload) : String :=
  "data:" ++ p.mimeType ++ ";base64," ++ p.base64

/-- Inline image data of a request or response part: MIME type plus base64
body. -/
structure InlineData where
  mimeType : String
  data : String
deriving DecidableEq

/-- A part of a multimodal request or response: inline image data or text. -/
inductive GPart where
  | inlineData (d : InlineData)
  | text (t : String)
deriving DecidableEq

/-- Whether a part carries inline image data. -/
def GPart.isImage : GPart → Bool
  | GPart.inlineData _ => true
  | GPart.text _ => false

/-- Content of a response candidate (its `parts` list may be absent). -/
structure Content where
  parts : Option (List GPart)
deriving DecidableEq

/-- One candidate of a generation response (its `content` may be absent). -/
structure Candidate where
  content : Option Content
deriving DecidableEq

/-- A generation response: candidate list plus the aggregated `text`
property used by description calls. -/
structure GenResponse where
  candidates : List Candidate
  text : String
deriving DecidableEq

/-- One call to the generation endpoint: model name and ordered parts. -/
structure Call where
  model : String
  parts : List GPart
deriving DecidableEq

/-- The external generation endpoint: a deterministic oracle mapping each
call to either a transport failure (a rejected promise, carrying its
message) or a response. -/
def Api : Type :=
  Call → Except String GenResponse

/-- First part of a list that carries inline image data, if any
(the short-circuiting `for` scan of the source). -/
def firstInlineImage : List GPart → Option InlineData
  | [] => none
  | GPart.inlineData d :: _ => some d
  | GPart.text _ :: rest => firstInlineImage rest

/-- Model of `getResponseImage` of `api/generate.ts` (and of
`getImageUrlFromResponse` in `App.tsx` up to data-URL formatting): guarded
scan of the first candidate's parts for the first inline image. -/
def getResponseImage (r : GenResponse) : Option InlineData :=
  match r.candidates with
  | [] => none
  | c :: _ =>
    match c.content with
    | none => none
    | some ct =>
      match ct.parts with
      | none => none
      | some ps => firstInlineImage ps

/-- Data-URL formatting of an extracted image. -/
def toDataUrl (d : InlineData) : String :=
  "data:" ++ d.mimeType ++ ";base64," ++ d.data

/-- Model of the `response.candidates?.[0]?.content?.parts ?? []` access of
the unnamed `generateMonumentImage` service. -/
def respParts000 (r : GenResponse) : List GPart :=
  match r.candidates with
  | [] => []
  | c :: _ =>
    match c.content with
    | none => []
    | some ct => ct.parts.getD []

/-- Image-generation model name used by the source. -/
def imgModel : String := "gemini-2.5-flash-image"

/-- Text model name used by the description call. -/
def textModel : String := "gemini-2.5-flash"

/-- Monument-from-text template of `api/generate.ts` (and the client-key
variant of `App.tsx`). -/
def monumentFromTextTemplate (p : String) : String :=
  "Create a photorealistic 3D render of a monument based on the following description: \"" ++ p ++ "\".\n\nKey requirements:\n1.  **Object:** The monument should be a high-quality, solid, three-dimensional object.\n2.  **Base:** It MUST be placed on a simple, elegant plinth or base that complements its design.\n3.  **Appearance:** The monument should look new and unweathered, with realistic textures and materials.\n4.  **Lighting:** Use studio lighting to give it a sense of depth and form.\n5.  **Background:** The final image must ONLY contain the monument and its base on a plain, neutral, single-color background (e.g., light grey), with no scenery. This is for later compositing."

/-- Monument-from-image template of `api/generate.ts`. -/
def monumentFromImageTemplate (p : String) : String :=
  "Task: Create a photorealistic 3D render of a monument based on the main subject of the provided image.\n\nInstructions:\n1.  **Isolate Subject:** Identify and perfectly isolate the main subject from the input image. Discard the original background entirely.\n2.  **Transform into a Monument:** Re-imagine and render the isolated subject as a high-quality, solid monument. The monument should be styled as: \"" ++ p ++ "\".\n3.  **Add a Base:** Place the monument on a simple, elegant plinth or base that complements its design (e.g., a square marble block, a cylindrical stone pedestal). The base is essential.\n4.  **Material and Texture:** The monument's surface should have realistic textures and lighting appropriate for the specified material. It should look like a solid, three-dimensional object, not a re-colored photo. It should look new and unweathered.\n5.  **Lighting:** Use dramatic studio lighting to highlight the monument's form and texture, creating realistic highlights and soft shadows on the object itself.\n6.  **Final Output:** The final image must ONLY contain the monument and its base on a plain, neutral, single-color background (like light grey). There should be no background scenery. This output is for later compositing."

/-- Scene-description instruction of the `describeScene` branch. -/
def describeTemplate : String :=
  "Briefly describe this image for an AI photo editing prompt. Focus on the main environment. For example: 'a sandy beach at sunset' or 'a snowy mountain range'."

/-- Scene-composite template of the `placeMonument` branch. -/
def finalEditTemplate (editPrompt : String) : String :=
  "Task: Photorealistically integrate the monument from the second image into the scene from the first image.\n\nInstructions:\n1.  **Scene Analysis:** Analyze the first image (the scene) to understand its lighting, perspective, and overall style.\n2.  **Object Integration:** Use the second image as a reference for the monument.\n3.  **Placement:** Follow this instruction for placement: \"" ++ editPrompt ++ "\".\n4.  **Realism:**\n    *   **Scale & Perspective:** Adjust the monument's size and perspective to fit realistically within the scene. It should look like it belongs there, not like a sticker.\n    *   **Lighting & Shadows:** The monument must be lit according to the scene's light sources. It must cast realistic shadows on the ground and surrounding objects that match the direction and softness of existing shadows in the scene.\n    *   **Color & Style:** The monument's colors and textures should be integrated with the scene's color grading and atmosphere.\n5.  **Output:** The final image must preserve the quality and dimensions of the original scene."

/-- Prompt selection of `generateMonument` in `services/geminiService.ts`
(the case with neither prompt nor image throws before this point). -/
def servicePrompt (prompt : String) (hasImage : Bool) : String :=
  if prompt ≠ "" ∧ hasImage then
    "Create a photorealistic monument of " ++ prompt ++ ", stylistically inspired by the provided image."
  else if prompt ≠ "" then
    "A photorealistic, majestic, and grand monument of " ++ prompt ++ "."
  else
    "Transform the subject of this image into a majestic stone monument."

/-- Catch-all error message of `services/geminiService.ts`. -/
def geminiCatchMsg : String :=
  "Failed to generate image. The model may have refused the request due to safety policies or other issues."

/-- Model of `generateMonument` in `services/geminiService.ts`.  The scan of
`response.candidates[0].content.parts` has no guards in the source, so a
missing candidate, content or parts list raises at runtime and is remapped
by the surrounding `catch`; when the scan completes, the function returns the
first inline image's data, or `null` (here `Option.none`) as its value. -/
def generateMonument (prompt : String) (image : Option InlineData) (api : Api) :
    Except String (Option String) :=
  if prompt = "" ∧ image = none then
    Except.error "A prompt or an image is required."
  else
    let parts :=
      (match image with
        | some i => [GPart.inlineData i]
        | none => []) ++ [GPart.text (servicePrompt prompt image.isSome)]
    match api ⟨imgModel, parts⟩ with
    | Except.error _ => Except.error geminiCatchMsg
    | Except.ok resp =>
      match resp.candidates with
      | [] => Except.error geminiCatchMsg
      | c :: _ =>
        match c.content with
        | none => Except.error geminiCatchMsg
        | some ct =>
          match ct.parts with
          | none => Except.error geminiCatchMsg
          | some ps => Except.ok ((firstInlineImage ps).map InlineData.data)

/-- Catch-all error message of the unnamed `generateMonumentImage` service
(the internal no-image throw is caught and remapped to this message). -/
def part000CatchMsg : String :=
  "Failed to generate image. Please check your prompt or API key and try again."

/-- Model of `generateMonumentImage` in the unnamed service module: the
image payload (when present) is unshifted before the text part, the first
inline image of `candidates?.[0]?.content?.parts ?? []` is returned as a
data URL, and every other outcome is a thrown error. -/
def generateMonumentImage (prompt : String) (image : Option ImagePayload) (api : Api) :
    Except String String :=
  let parts :=
    (match image with
      | some i => [GPart.inlineData ⟨i.mimeType, i.base64⟩]
      | none => []) ++ [GPart.text prompt]
  match api ⟨imgModel, parts⟩ with
  | Except.error _ => Except.error part000CatchMsg
  | Except.ok resp =>
    match firstInlineImage (respParts000 resp) with
    | some d => Except.ok (toDataUrl d)
    | none => Except.error part000CatchMsg

/-- Backend `generateMonumentFromPrompt` branch of `api/generate.ts`: one
text-only call with the monument-from-text template; the extracted image is
returned as a data URL, otherwise the branch throws. -/
def generateMonumentFromPromptBranch (prompt : String) (api : Api) : Except String String :=
  match api ⟨imgModel, [GPart.text (monumentFromTextTemplate prompt)]⟩ with
  | Except.error e => Except.error e
  | Except.ok resp =>
    match getResponseImage resp with
    | some img => Except.ok (toDataUrl img)
    | none => Except.error "API did not return an image."

/-- Backend `generateMonumentFromImage` branch of `api/generate.ts`. -/
def generateMonumentFromImageBranch (prompt : String) (image : InlineData) (api : Api) :
    Except String String :=
  match api ⟨imgModel, [GPart.inlineData image, GPart.text (monumentFromImageTemplate prompt)]⟩ with
  | Except.error e => Except.error e
  | Except.ok resp =>
    match getResponseImage resp with
    | some img => Except.ok (toDataUrl img)
    | none => Except.error "API did not return an image."

/-- Backend `describeScene` branch of `api/generate.ts`: one image-plus-text
call to the text model whose trimmed aggregated text is the description. -/
def describeSceneBranch (image : InlineData) (api : Api) : Except String String :=
  match api ⟨textModel, [GPart.inlineData image, GPart.text describeTemplate]⟩ with
  | Except.error e => Except.error e
  | Except.ok resp => Except.ok resp.text.trim

/-- Source mode selector (`'prompt' | 'upload'`). -/
inductive SourceMode where
  | prompt
  | upload
deriving DecidableEq

/-- The text-only scene-generation call issued by the `placeMonument`
branch when the scene mode is `prompt`: the raw scene prompt is the sole
part. -/
def sceneCall (scenePrompt : String) : Call :=
  ⟨imgModel, [GPart.text scenePrompt]⟩

/-- The final compositing call of the `placeMonument` branch: scene image,
monument image, then the composed placement instruction. -/
def compositeCall (scene monument : InlineData) (editPrompt : String) : Call :=
  ⟨imgModel, [GPart.inlineData scene, GPart.inlineData monument,
              GPart.text (finalEditTemplate editPrompt)]⟩

/-- Final extraction step of the `placeMonument` branch. -/
def finishPlace : Except String GenResponse → Except String String
  | Except.error e => Except.error e
  | Except.ok resp =>
    match getResponseImage resp with
    | some img => Except.ok (toDataUrl img)
    | none => Except.error "API did not return the final image."

/-- Backend `placeMonument` branch of `api/generate.ts`, with the list of
calls it issues, in order.  With scene mode `prompt` it first generates the
scene from the raw scene prompt and aborts if that call yields no image;
otherwise it uses the uploaded scene image; the second (or only) call
composites scene, monument and placement instruction. -/
def placeMonumentBranch (sceneSource : SourceMode) (scenePrompt : Option String)
    (sceneImage : Option InlineData) (monumentImage : InlineData)
    (editPrompt : String) (api : Api) : Except String String × List Call :=
  match sceneSource with
  | SourceMode.prompt =>
    let call1 := sceneCall (scenePrompt.getD "")
    match api call1 with
    | Except.error e => (Except.error e, [call1])
    | Except.ok resp1 =>
      match getResponseImage resp1 with
      | none => (Except.error "Failed to generate a scene from prompt.", [call1])
      | some scene =>
        let call2 := compositeCall scene monumentImage editPrompt
        (finishPlace (api call2), [call1, call2])
  | SourceMode.upload =>
    let call2 := compositeCall (sceneImage.getD ⟨"", ""⟩) monumentImage editPrompt
    (finishPlace (api call2), [call2])

/-- Workflow step of the orchestrator. -/
inductive Step where
  | CreateMonument
  | PlaceInScene
  | Share
deriving DecidableEq

/-- Whether `hay` starts with `needle`. -/
def charsHasPre : List Char → List Char → Bool
  | [], _ => true
  | _ :: _, [] => false
  | a :: as, b :: bs => a = b && charsHasPre as bs

/-- Whether `needle` occurs somewhere in `hay`. -/
def charsContains (hay needle : List Char) : Bool :=
  match hay with
  | [] => needle.isEmpty
  | _ :: t => charsHasPre needle hay || charsContains t needle

/-- Model of JavaScript `s.includes(sub)`. -/
def strContains (s sub : String) : Bool :=
  charsContains s.data sub.data

/-- Model of `handleError` of the server-proxied `App.tsx` variant: quota
errors are remapped, every other message is surfaced as is. -/
def remapError (msg : String) : String :=
  if strContains msg "quota" then
    "You've exceeded your API quota. Please check your billing details or redeploy with a new key."
  else
    msg

/-- Default monument prompt installed by `changeMonumentSource`. -/
def defaultMonumentPrompt : SourceMode → String
  | SourceMode.upload => "A grand, majestic monument made of polished bronze."
  | SourceMode.prompt => "A majestic crystal obelisk monument, futuristic, glowing"

/-- Default placement instruction installed by `changeSceneSource`. -/
def defaultEditPrompt : SourceMode → String
  | SourceMode.prompt => "Place the monument in the generated scene, ensuring it looks natural and well-integrated."
  | SourceMode.upload => "Place the monument in the center of the scene, making it look natural"

/-- Orchestrator state of the server-proxied `App.tsx` variant: the workflow
step and every `useState` field the workflow actions read or write. -/
structure AppState where
  step : Step
  monumentSource : SourceMode
  monumentPrompt : String
  monumentFile : Option MFile
  generatedMonument : Option String
  sceneSource : SourceMode
  scenePrompt : String
  sceneFile : Option MFile
  editPrompt : String
  finalImage : Option String
  isLoading : Bool
  isGeneratingPrompt : Bool
  error : Option String
deriving DecidableEq

/-- Initial orchestrator state (the `useState` initialisers). -/
def initialState : AppState where
  step := Step.CreateMonument
  monumentSource := SourceMode.prompt
  monumentPrompt := "A majestic crystal obelisk monument, futuristic, glowing"
  monumentFile := none
  generatedMonument := none
  sceneSource := SourceMode.upload
  scenePrompt := "A beautiful sunny park with green grass and trees, photorealistic."
  sceneFile := none
  editPrompt := "Add the monument to the center of the park, making it look natural"
  finalImage := none
  isLoading := false
  isGeneratingPrompt := false
  error := none

/-- Model of `changeMonumentSource`: clears the generated monument and the
uploaded monument file, installs the target mode and its default prompt,
and clears the error. -/
def changeMonumentSource (m : SourceMode) (s : AppState) : AppState :=
  { s with generatedMonument := none, monumentFile := none,
           monumentSource := m, error := none,
           monumentPrompt := defaultMonumentPrompt m }

/-- Model of `changeSceneSource`: clears the uploaded scene file and the
error, installs the target mode and its default placement instruction. -/
def changeSceneSource (m : SourceMode) (s : AppState) : AppState :=
  { s with sceneFile := none, error := none, sceneSource := m,
           editPrompt := defaultEditPrompt m }

/-- Model of `handleGenerateMonument`: validate the prompt, call the
backend, and store the returned image URL on success. -/
def handleGenerateMonument (api : Api) (s : AppState) : AppState :=
  if s.monumentPrompt = "" then
    { s with error := some "Please enter a prompt for the monument." }
  else
    match generateMonumentFromPromptBranch s.monumentPrompt api with
    | Except.ok url =>
      if url = "" then
        { s with isLoading := false, error := some (remapError "No image was generated.") }
      else
        { s with generatedMonument := some url, isLoading := false, error := none }
    | Except.error e =>
      { s with isLoading := false, error := some (remapError e) }

/-- Model of `handleGenerateMonumentFromImage`: validate file and prompt,
encode the file, call the backend, and store the result on success. -/
def handleGenerateMonumentFromImage (api : Api) (s : AppState) : AppState :=
  if s.monumentFile = none ∨ s.monumentPrompt = "" then
    { s with error := some "Please upload an image and provide a style prompt." }
  else
    match generateMonumentFromImageBranch s.monumentPrompt
        ⟨(s.monumentFile.getD ⟨"", "", ""⟩).type,
         fileToBase64 (s.monumentFile.getD ⟨"", "", ""⟩)⟩ api with
    | Except.ok url =>
      if url = "" then
        { s with isLoading := false,
                 error := some (remapError "No image was generated from the provided image.") }
      else
        { s with generatedMonument := some url, isLoading := false, error := none }
    | Except.error e =>
      { s with isLoading := false, error := some (remapError e) }

/-- Model of `handleSceneUpload`: the file is stored, the auto-description
call runs, and its outcome either seeds the placement instruction with the
description or falls back to the fixed default with a surfaced error; the
description busy flag is cleared by the `finally` clause in both cases. -/
def handleSceneUpload (f : MFile) (api : Api) (s : AppState) : AppState :=
  match describeSceneBranch ⟨f.type, fileToBase64 f⟩ api with
  | Except.ok desc =>
    { s with sceneFile := some f, isGeneratingPrompt := false, error := none,
             editPrompt := "Add the monument to " ++ desc ++ ", making it look natural" }
  | Except.error e =>
    { s with sceneFile := some f, isGeneratingPrompt := false,
             error := some (remapError e),
             editPrompt := "Add the monument to the scene, making it look natural" }

/-- The monument image payload sent by `handlePlaceMonument`: the stored
data URL split at its comma, tagged `image/png`. -/
def monumentPayload (s : AppState) : InlineData :=
  ⟨"image/png", afterComma (s.generatedMonument.getD "")⟩

/-- Model of `handlePlaceMonument` together with the list of generation
calls issued on its behalf by the backend.  The two validation guards
return before any call; otherwise the backend `placeMonument` branch runs
and a returned final image URL advances the workflow to `Share`. -/
def handlePlaceMonumentCalls (api : Api) (s : AppState) : AppState × List Call :=
  if s.generatedMonument = none then
    ({ s with error := some "No monument has been created." }, [])
  else if (s.sceneSource = SourceMode.upload ∧ s.sceneFile = none) ∨
          (s.sceneSource = SourceMode.prompt ∧ s.scenePrompt = "") ∨
          s.editPrompt = "" then
    ({ s with error := some "Please provide all required inputs for the scene." }, [])
  else
    let res := placeMonumentBranch s.sceneSource
      (if s.sceneSource = SourceMode.prompt then some s.scenePrompt else none)
      (if s.sceneSource = SourceMode.upload then
        s.sceneFile.map (fun f => InlineData.mk f.type (fileToBase64 f))
       else none)
      (monumentPayload s) s.editPrompt api
    (match res.1 with
     | Except.ok url =>
       if url = "" then
         { s with isLoading := false,
                  error := some (remapError "Failed to generate the final image.") }
       else
         { s with finalImage := some url, step := Step.Share,
                  isLoading := false, error := none }
     | Except.error e =>
       { s with isLoading := false, error := some (remapError e) }, res.2)

/-- State effect of `handlePlaceMonument`. -/
def handlePlaceMonument (api : Api) (s : AppState) : AppState :=
  (handlePlaceMonumentCalls api s).1

/-- The `disabled` predicate of the Place Monument button. -/
def placeDisabled (s : AppState) : Bool :=
  s.isLoading || s.isGeneratingPrompt ||
  (decide (s.sceneSource = SourceMode.upload) && s.sceneFile.isNone) ||
  (decide (s.sceneSource = SourceMode.prompt) && decide (s.scenePrompt = "")) ||
  decide (s.editPrompt = "")

/-- The Next button: advance to `PlaceInScene`. -/
def goPlaceInScene (s : AppState) : AppState :=
  { s with step := Step.PlaceInScene }

/-- The Back link of the `PlaceInScene` step. -/
def backToCreate (s : AppState) : AppState :=
  { s with step := Step.CreateMonument }

/-- Model of the Start Over button of the `Share` step: exactly the five
`set` calls of the source. -/
def resetApp (s : AppState) : AppState :=
  { s with step := Step.CreateMonument, generatedMonument := none,
           finalImage := none, sceneFile := none, error := none }

/-- Monument file selection (`onImageUpload={setMonumentFile}`). -/
def setMonumentFileAction (f : MFile) (s : AppState) : AppState :=
  { s with monumentFile := some f }

/-- Monument prompt textarea edit. -/
def setMonumentPromptAction (t : String) (s : AppState) : AppState :=
  { s with monumentPrompt := t }

/-- Scene prompt textarea edit. -/
def setScenePromptAction (t : String) (s : AppState) : AppState :=
  { s with scenePrompt := t }

/-- Placement instruction textarea edit. -/
def setEditPromptAction (t : String) (s : AppState) : AppState :=
  { s with editPrompt := t }

/-- States reachable from the initial state by the user-triggerable actions,
each guarded by the step (and button conditions) under which its control is
rendered and enabled in the source. -/
inductive Reachable : AppState → Prop where
  | init : Reachable initialState
  | genMonument (s : AppState) (api : Api) :
      Reachable s → s.step = Step.CreateMonument →
      Reachable (handleGenerateMonument api s)
  | genMonumentFromImage (s : AppState) (api : Api) :
      Reachable s → s.step = Step.CreateMonument →
      Reachable (handleGenerateMonumentFromImage api s)
  | switchMonumentSource (s : AppState) (m : SourceMode) :
      Reachable s → s.step = Step.CreateMonument →
      Reachable (changeMonumentSource m s)
  | pickMonumentFile (s : AppState) (f : MFile) :
      Reachable s → s.step = Step.CreateMonument →
      Reachable (setMonumentFileAction f s)
  | editMonumentPrompt (s : AppState) (t : String) :
      Reachable s → s.step = Step.CreateMonument →
      Reachable (setMonumentPromptAction t s)
  | next (s : AppState) :
      Reachable s → s.step = Step.CreateMonument →
      s.generatedMonument ≠ none → s.isLoading = false →
      Reachable (goPlaceInScene s)
  | switchSceneSource (s : AppState) (m : SourceMode) :
      Reachable s → s.step = Step.PlaceInScene →
      Reachable (changeSceneSource m s)
  | uploadScene (s : AppState) (f : MFile) (api : Api) :
      Reachable s → s.step = Step.PlaceInScene → s.sceneSource = SourceMode.upload →
      Reachable (handleSceneUpload f api s)
  | editScenePrompt (s : AppState) (t : String) :
      Reachable s → s.step = Step.PlaceInScene →
      Reachable (setScenePromptAction t s)
  | editEditPrompt (s : AppState) (t : String) :
      Reachable s → s.step = Step.PlaceInScene →
      Reachable (setEditPromptAction t s)
  | place (s : AppState) (api : Api) :
      Reachable s → s.step = Step.PlaceInScene →
      Reachable (handlePlaceMonument api s)
  | back (s : AppState) :
      Reachable s → s.step = Step.PlaceInScene →
      Reachable (backToCreate s)
  | reset (s : AppState) :
      Reachable s → s.step = Step.Share →
      Reachable (resetApp s)

/-- The step-ordering invariant of the workflow. -/
def WorkflowInv (s : AppState) : Prop :=
  (s.step = Step.PlaceInScene → s.generatedMonument ≠ none) ∧
  (s.step = Step.Share → s.finalImage ≠ none)

lemma workflowInv_of_createMonument {s : AppState}
    (h : s.step = Step.CreateMonument) : WorkflowInv s := by
  constructor <;> intro hp <;> rw [h] at hp <;> exact absurd hp (by decide)

lemma workflowInv_of_placeInScene {s : AppState}
    (h : s.step = Step.PlaceInScene) (hm : s.generatedMonument ≠ none) :
    WorkflowInv s := by
  refine ⟨fun _ => hm, fun hp => ?_⟩
  rw [h] at hp
  exact absurd hp (by decide)

lemma workflowInv_of_share {s : AppState}
    (h : s.step = Step.Share) (hf : s.finalImage ≠ none) :
    WorkflowInv s := by
  refine ⟨fun hp => ?_, fun _ => hf⟩
  rw [h] at hp
  exact absurd hp (by decide)

lemma step_handleGenerateMonument (api : Api) (s : AppState) :
    (handleGenerateMonument api s).step = s.step := by
  unfold handleGenerateMonument
  split
  · rfl
  · split
    · split <;> rfl
    · rfl

lemma step_handleGenerateMonumentFromImage (api : Api) (s : AppState) :
    (handleGenerateMonumentFromImage api s).step = s.step := by
  unfold handleGenerateMonumentFromImage
  split
  · rfl
  · split
    · split <;> rfl
    · rfl

lemma step_handleSceneUpload (f : MFile) (api : Api) (s : AppState) :
    (handleSceneUpload f api s).step = s.step := by
  unfold handleSceneUpload
  split <;> rfl

lemma genMon_handleSceneUpload (f : MFile) (api : Api) (s : AppState) :
    (handleSceneUpload f api s).generatedMonument = s.generatedMonument := by
  unfold handleSceneUpload
  split <;> rfl

lemma place_frame (api : Api) (s : AppState) :
    (handlePlaceMonument api s).generatedMonument = s.generatedMonument ∧
    ((handlePlaceMonument api s).step = s.step ∨
      ((handlePlaceMonument api s).step = Step.Share ∧
       (handlePlaceMonument api s).finalImage ≠ none)) := by
  unfold handlePlaceMonument handlePlaceMonumentCalls
  split
  · exact ⟨rfl, Or.inl rfl⟩
  · split
    · exact ⟨rfl, Or.inl rfl⟩
    · dsimp only
      split
      · split
        · exact ⟨rfl, Or.inl rfl⟩
        · exact ⟨rfl, Or.inr ⟨rfl, by simp⟩⟩
      · exact ⟨rfl, Or.inl rfl⟩

/-- C1: in every orchestrator state reachable from the initial state by the
defined actions, reaching `PlaceInScene` requires a non-null generated
monument and reaching `Share` requires a non-null final composite. -/
theorem workflow_step_invariant (s : AppState) (h : Reachable s) :
    (s.step = Step.PlaceInScene → s.generatedMonument ≠ none) ∧
    (s.step = Step.Share → s.finalImage ≠ none) := by
  induction h with
  | init => exact workflowInv_of_createMonument rfl
  | genMonument s api _ hstep _ =>
      exact workflowInv_of_createMonument
        ((step_handleGenerateMonument api s).trans hstep)
  | genMonumentFromImage s api _ hstep _ =>
      exact workflowInv_of_createMonument
        ((step_handleGenerateMonumentFromImage api s).trans hstep)
  | switchMonumentSource s m _ hstep _ =>
      exact workflowInv_of_createMonument hstep
  | pickMonumentFile s f _ hstep _ =>
      exact workflowInv_of_createMonument hstep
  | editMonumentPrompt s t _ hstep _ =>
      exact workflowInv_of_createMonument hstep
  | next s _ _ hmon _ _ =>
      exact workflowInv_of_placeInScene rfl hmon
  | switchSceneSource s m _ hstep ih =>
      exact workflowInv_of_placeInScene hstep (ih.1 hstep)
  | uploadScene s f api _ hstep _ ih =>
      refine workflowInv_of_placeInScene
        ((step_handleSceneUpload f api s).trans hstep) ?_
      rw [genMon_handleSceneUpload]
      exact ih.1 hstep
  | editScenePrompt s t _ hstep ih =>
      exact workflowInv_of_placeInScene hstep (ih.1 hstep)
  | editEditPrompt s t _ hstep ih =>
      exact workflowInv_of_placeInScene hstep (ih.1 hstep)
  | place s api _ hstep ih =>
      obtain ⟨hg, hcase | ⟨hsh, hf⟩⟩ := place_frame api s
      · refine workflowInv_of_placeInScene (hcase.trans hstep) ?_
        rw [hg]
        exact ih.1 hstep
      · exact workflowInv_of_share hsh hf
  | back s _ _ =>
      exact workflowInv_of_createMonument rfl
  | reset s _ _ =>
      exact workflowInv_of_createMonument rfl

/-- Witness for C1: the invariant instantiated at the initial state. -/
theorem workflow_step_invariant_witness :
    (initialState.step = Step.PlaceInScene → initialState.generatedMonument ≠ none) ∧
    (initialState.step = Step.Share → initialState.finalImage ≠ none) :=
  workflow_step_invariant initialState Reachable.init

/-- C2: whenever the monument is missing, the upload-mode scene file is
missing, the prompt-mode scene prompt is empty, or the placement
instruction is empty, `handlePlaceMonument` surfaces a validation error,
issues no generation call, and leaves step, monument and final composite
unchanged. -/
theorem placeMonument_guard (api : Api) (s : AppState)
    (h : s.generatedMonument = none ∨
         (s.sceneSource = SourceMode.upload ∧ s.sceneFile = none) ∨
         (s.sceneSource = SourceMode.prompt ∧ s.scenePrompt = "") ∨
         s.editPrompt = "") :
    (handlePlaceMonumentCalls api s).2 = [] ∧
    (handlePlaceMonumentCalls api s).1.error ≠ none ∧
    (handlePlaceMonumentCalls api s).1.step = s.step ∧
    (handlePlaceMonumentCalls api s).1.generatedMonument = s.generatedMonument ∧
    (handlePlaceMonumentCalls api s).1.finalImage = s.finalImage := by
  unfold handlePlaceMonumentCalls
  split
  · exact ⟨rfl, by simp, rfl, rfl, rfl⟩
  · split
    · exact ⟨rfl, by simp, rfl, rfl, rfl⟩
    · rename_i h1 h2
      rcases h with h | h
      · exact absurd h h1
      · exact absurd h h2

/-- Witness for C2: at the initial state (no generated monument) the guard
fires with no call and unchanged workflow fields. -/
theorem placeMonument_guard_witness :
    (handlePlaceMonumentCalls (fun _ => Except.error "down") initialState).2 = [] ∧
    (handlePlaceMonumentCalls (fun _ => Except.error "down") initialState).1.error ≠ none ∧
    (handlePlaceMonumentCalls (fun _ => Except.error "down") initialState).1.step = initialState.step ∧
    (handlePlaceMonumentCalls (fun _ => Except.error "down") initialState).1.generatedMonument = initialState.generatedMonument ∧
    (handlePlaceMonumentCalls (fun _ => Except.error "down") initialState).1.finalImage = initialState.finalImage :=
  placeMonument_guard (fun _ => Except.error "down") initialState (Or.inl rfl)

/-- C7: switching the monument source mode always clears the generated
monument and the uploaded monument file and installs the mode's fixed
default prompt. -/
theorem monument_mode_switch_clears (s : AppState) (m : SourceMode) :
    (changeMonumentSource m s).generatedMonument = none ∧
    (changeMonumentSource m s).monumentFile = none ∧
    (changeMonumentSource m s).monumentPrompt = defaultMonumentPrompt m :=
  ⟨rfl, rfl, rfl⟩

/-- C10: switching the scene source mode clears the scene file and the
error and installs the mode's default placement instruction, leaving the
generated monument, the scene prompt, the final composite and the step
unchanged. -/
theorem scene_mode_switch_frame (s : AppState) (m : SourceMode) :
    (changeSceneSource m s).sceneFile = none ∧
    (changeSceneSource m s).error = none ∧
    (changeSceneSource m s).editPrompt = defaultEditPrompt m ∧
    (changeSceneSource m s).generatedMonument = s.generatedMonument ∧
    (changeSceneSource m s).scenePrompt = s.scenePrompt ∧
    (changeSceneSource m s).finalImage = s.finalImage ∧
    (changeSceneSource m s).step = s.step :=
  ⟨rfl, rfl, rfl, rfl, rfl, rfl, rfl⟩

/-- A `Share`-step state carrying an uploaded monument file and edited
text fields, used to show what reset does and does not clear. -/
def resetCexState : AppState :=
  { initialState with
    step := Step.Share,
    monumentFile := some ⟨"QUJD", "image/png", "ref.png"⟩,
    monumentPrompt := "a bronze lion",
    scenePrompt := "a quiet harbor",
    editPrompt := "Put it on the pier",
    generatedMonument := some "data:image/png;base64,TU9O",
    finalImage := some "data:image/png;base64,RklO" }

/-- Counterexample for C9 as stated: reset from `Share` does not clear the
uploaded monument file (nor the prompt texts), so not all workflow fields
return to their initial or empty values. -/
theorem reset_keeps_monument_file :
    resetCexState.step = Step.Share ∧
    (resetApp resetCexState).monumentFile ≠ none ∧
    (resetApp resetCexState).monumentPrompt = "a bronze lion" ∧
    (resetApp resetCexState).scenePrompt = "a quiet harbor" ∧
    (resetApp resetCexState).editPrompt = "Put it on the pier" := by
  refine ⟨rfl, ?_, rfl, rfl, rfl⟩
  simp [resetApp, resetCexState]

/-- C9 (amended): reset from `Share` returns to `CreateMonument` and clears
the generated monument, the final composite, the uploaded scene file and
the error, while leaving the uploaded monument file, the monument prompt,
the scene prompt and the placement instruction unchanged. -/
theorem reset_effect (s : AppState) (h : s.step = Step.Share) :
    (resetApp s).step = Step.CreateMonument ∧
    (resetApp s).generatedMonument = none ∧
    (resetApp s).finalImage = none ∧
    (resetApp s).sceneFile = none ∧
    (resetApp s).error = none ∧
    (resetApp s).monumentFile = s.monumentFile ∧
    (resetApp s).monumentPrompt = s.monumentPrompt ∧
    (resetApp s).scenePrompt = s.scenePrompt ∧
    (resetApp s).editPrompt = s.editPrompt :=
  ⟨rfl, rfl, rfl, rfl, rfl, rfl, rfl, rfl, rfl⟩

/-- Witness for the amended C9: reset applied at the concrete `Share`
state. -/
theorem reset_effect_witness :
    (resetApp resetCexState).step = Step.CreateMonument ∧
    (resetApp resetCexState).generatedMonument = none ∧
    (resetApp resetCexState).finalImage = none ∧
    (resetApp resetCexState).sceneFile = none ∧
    (resetApp resetCexState).error = none ∧
    (resetApp resetCexState).monumentFile = resetCexState.monumentFile ∧
    (resetApp resetCexState).monumentPrompt = resetCexState.monumentPrompt ∧
    (resetApp resetCexState).scenePrompt = resetCexState.scenePrompt ∧
    (resetApp resetCexState).editPrompt = resetCexState.editPrompt :=
  reset_effect resetCexState rfl

/-- C8: when the auto-description call of a scene upload fails, the
placement instruction falls back to the fixed literal, an error notice is
surfaced, the description busy flag is cleared, and the Place Monument
button stays enabled (the submission is not blocked). -/
theorem scene_autodescribe_fallback (s : AppState) (f : MFile) (e : String)
    (hload : s.isLoading = false) (hmode : s.sceneSource = SourceMode.upload) :
    (handleSceneUpload f (fun _ => Except.error e) s).editPrompt =
      "Add the monument to the scene, making it look natural" ∧
    (handleSceneUpload f (fun _ => Except.error e) s).error ≠ none ∧
    (handleSceneUpload f (fun _ => Except.error e) s).isGeneratingPrompt = false ∧
    placeDisabled (handleSceneUpload f (fun _ => Except.error e) s) = false := by
  refine ⟨?_, ?_, ?_, ?_⟩ <;>
    simp [handleSceneUpload, describeSceneBranch, placeDisabled, hload, hmode]

/-- Witness for C8: a failed description call at the initial state (upload
scene mode, not loading). -/
theorem scene_autodescribe_fallback_witness :
    (handleSceneUpload ⟨"QUJD", "image/png", "scene.png"⟩
        (fun _ => Except.error "network down") initialState).editPrompt =
      "Add the monument to the scene, making it look natural" ∧
    (handleSceneUpload ⟨"QUJD", "image/png", "scene.png"⟩
        (fun _ => Except.error "network down") initialState).error ≠ none ∧
    (handleSceneUpload ⟨"QUJD", "image/png", "scene.png"⟩
        (fun _ => Except.error "network down") initialState).isGeneratingPrompt = false ∧
    placeDisabled (handleSceneUpload ⟨"QUJD", "image/png", "scene.png"⟩
        (fun _ => Except.error "network down") initialState) = false :=
  scene_autodescribe_fallback initialState ⟨"QUJD", "image/png", "scene.png"⟩
    "network down" rfl rfl

lemma string_data_append (s t : String) : (s ++ t).data = s.data ++ t.data := by
  cases s
  cases t
  rfl

lemma toDataUrl_ne_empty (d : InlineData) : toDataUrl d ≠ "" := by
  intro h
  have hl := congrArg (fun s => s.data.length) h
  simp [toDataUrl, string_data_append] at hl

/-- An oracle whose responses never carry an inline image part. -/
def noImageApi : Api := fun _ =>
  Except.ok ⟨[⟨some ⟨some [GPart.text "no image"]⟩⟩], "no image"⟩

/-- A `PlaceInScene` state in prompt scene mode with every input of the
placement action present. -/
def placeCexState : AppState :=
  { initialState with
    step := Step.PlaceInScene,
    sceneSource := SourceMode.prompt,
    scenePrompt := "a park",
    editPrompt := "Add the monument to the park, making it look natural",
    generatedMonument := some "data:image/png;base64,TU9O" }

/-- Counterexample for C4 as stated: with scene mode prompt, a non-empty
scene prompt, a non-null monument and a non-empty placement instruction,
the action can still issue exactly one generation call (the scene call),
because the compositing call is skipped when the scene call yields no
image. -/
theorem place_prompt_single_call_on_scene_failure :
    (handlePlaceMonumentCalls noImageApi placeCexState).2 = [sceneCall "a park"] ∧
    (handlePlaceMonumentCalls noImageApi placeCexState).2.length = 1 := by
  constructor <;> rfl

/-- C4 (amended): with scene mode prompt and all inputs present, provided
the first (text-only scene) call returns a scene image, exactly two calls
are made in order — the raw scene prompt, then scene image, monument image
and composed placement text — and the stored final composite is the image
extracted from the second call's response, never from the first. -/
theorem place_prompt_two_calls (api : Api) (s : AppState) (resp1 : GenResponse)
    (scene : InlineData)
    (hmode : s.sceneSource = SourceMode.prompt)
    (hmon : s.generatedMonument ≠ none)
    (hsp : s.scenePrompt ≠ "") (hep : s.editPrompt ≠ "")
    (h1 : api (sceneCall s.scenePrompt) = Except.ok resp1)
    (h2 : getResponseImage resp1 = some scene) :
    (handlePlaceMonumentCalls api s).2 =
      [sceneCall s.scenePrompt,
       compositeCall scene (monumentPayload s) s.editPrompt] ∧
    ∀ resp2 fin,
      api (compositeCall scene (monumentPayload s) s.editPrompt) = Except.ok resp2 →
      getResponseImage resp2 = some fin →
      (handlePlaceMonumentCalls api s).1.finalImage = some (toDataUrl fin) ∧
      (handlePlaceMonumentCalls api s).1.step = Step.Share := by
  have hguard : ¬ ((s.sceneSource = SourceMode.upload ∧ s.sceneFile = none) ∨
      (s.sceneSource = SourceMode.prompt ∧ s.scenePrompt = "") ∨ s.editPrompt = "") := by
    rintro (⟨hu, _⟩ | ⟨_, hsp2⟩ | hep2)
    · rw [hmode] at hu
      exact absurd hu (by decide)
    · exact hsp hsp2
    · exact hep hep2
  unfold handlePlaceMonumentCalls
  rw [if_neg hmon, if_neg hguard]
  dsimp only
  rw [hmode]
  simp only [reduceIte]
  unfold placeMonumentBranch
  dsimp only
  simp only [Option.getD_some]
  rw [h1]
  dsimp only
  rw [h2]
  dsimp only
  constructor
  · rfl
  · intro resp2 fin h3 h4
    unfold finishPlace
    rw [h3]
    dsimp only
    rw [h4]
    dsimp only
    rw [if_neg (toDataUrl_ne_empty fin)]
    exact ⟨rfl, rfl⟩

/-- Scene-generation response used by the C4 witness. -/
def sceneRespWit : GenResponse :=
  ⟨[⟨some ⟨some [GPart.inlineData ⟨"image/png", "U0NFTkU"⟩]⟩⟩], ""⟩

/-- Compositing response used by the C4 witness. -/
def finRespWit : GenResponse :=
  ⟨[⟨some ⟨some [GPart.inlineData ⟨"image/png", "RklOQUw"⟩]⟩⟩], ""⟩

/-- Oracle answering the scene call with a scene image and every other
call with the final image. -/
def witApi4 : Api := fun c =>
  if c = sceneCall "a park" then Except.ok sceneRespWit else Except.ok finRespWit

/-- Witness for the amended C4: the concrete prompt-mode run issues the two
calls in order and stores the second call's image. -/
theorem place_prompt_two_calls_witness :
    (handlePlaceMonumentCalls witApi4 placeCexState).2 =
      [sceneCall placeCexState.scenePrompt,
       compositeCall ⟨"image/png", "U0NFTkU"⟩ (monumentPayload placeCexState)
         placeCexState.editPrompt] ∧
    (handlePlaceMonumentCalls witApi4 placeCexState).1.finalImage =
      some (toDataUrl ⟨"image/png", "RklOQUw"⟩) ∧
    (handlePlaceMonumentCalls witApi4 placeCexState).1.step = Step.Share := by
  have h := place_prompt_two_calls witApi4 placeCexState sceneRespWit
    ⟨"image/png", "U0NFTkU"⟩ rfl (by decide) (by decide) (by decide) rfl rfl
  exact ⟨h.1, (h.2 finRespWit ⟨"image/png", "RklOQUw"⟩ rfl rfl).1,
         (h.2 finRespWit ⟨"image/png", "RklOQUw"⟩ rfl rfl).2⟩

/-- Counterexample for C3 as stated: for a response whose first candidate's
parts carry no inline image data, `generateMonument` of
`services/geminiService.ts` succeeds with the value `null` instead of
failing — the no-image outcome is a returned value there, not a
distinguished failure. -/
theorem generateMonument_null_success :
    generateMonument "a lion" none noImageApi = Except.ok none := by
  rfl

/-- C3 (amended): the unnamed `generateMonumentImage` client does fail
whenever the response carries no inline image part: every run against an
endpoint whose successful responses contain no inline image data (or that
fails in transport) ends in the distinguished error outcome. -/
theorem generateMonumentImage_no_image_fails (prompt : String)
    (image : Option ImagePayload) (api : Api)
    (h : ∀ c r, api c = Except.ok r → firstInlineImage (respParts000 r) = none) :
    generateMonumentImage prompt image api = Except.error part000CatchMsg := by
  unfold generateMonumentImage
  dsimp only
  split
  · rfl
  · rename_i r heq
    rw [h _ _ heq]

/-- Witness for the amended C3: a concrete empty response makes
`generateMonumentImage` fail with the catch-all message. -/
theorem generateMonumentImage_no_image_fails_witness :
    generateMonumentImage "a lion" none (fun _ => Except.ok ⟨[], ""⟩) =
      Except.error part000CatchMsg :=
  generateMonumentImage_no_image_fails "a lion" none (fun _ => Except.ok ⟨[], ""⟩)
    (fun _ r hr => by
      injection hr with hh
      rw [← hh]
      rfl)

lemma splitCh_cons (c x : Char) (xs : List Char) :
    splitCh c (x :: xs) =
      if x = c then [] :: splitCh c xs else splitConsHead x (splitCh c xs) := rfl

lemma splitCh_of_not_mem {c : Char} {l : List Char} (h : c ∉ l) :
    splitCh c l = [l] := by
  induction l with
  | nil => rfl
  | cons x xs ih =>
    have hx : ¬ x = c := by
      rintro rfl
      exact h (List.mem_cons_self x xs)
    have hxs : c ∉ xs := fun hm => h (List.mem_cons_of_mem _ hm)
    rw [splitCh_cons, if_neg hx, ih hxs]
    rfl

lemma splitCh_append {c : Char} {l₁ l₂ : List Char} (h : c ∉ l₁) :
    splitCh c (l₁ ++ c :: l₂) = l₁ :: splitCh c l₂ := by
  induction l₁ with
  | nil =>
    rw [List.nil_append, splitCh_cons, if_pos rfl]
  | cons x xs ih =>
    have hx : ¬ x = c := by
      rintro rfl
      exact h (List.mem_cons_self x xs)
    have hxs : c ∉ xs := fun hm => h (List.mem_cons_of_mem _ hm)
    rw [List.cons_append, splitCh_cons, if_neg hx, ih hxs]
    rfl

lemma dataUrl_data (m b : String) :
    ("data:" ++ m ++ ";base64," ++ b).data =
      ("data:".data ++ m.data ++ ";base64".data) ++ ',' :: b.data := by
  have h8 : (";base64,").data = ";base64".data ++ [','] := by decide
  simp [string_data_append, h8]

lemma afterComma_dataUrl (m b : String) (hm : ',' ∉ m.data) (hb : ',' ∉ b.data) :
    afterComma ("data:" ++ m ++ ";base64," ++ b) = b := by
  have hpre : ',' ∉ ("data:".data ++ m.data ++ ";base64".data) := by
    intro hmem
    simp only [List.mem_append] at hmem
    rcases hmem with (hmem | hmem) | hmem
    · revert hmem
      decide
    · exact hm hmem
    · revert hmem
      decide
  unfold afterComma splitOnComma
  rw [dataUrl_data, splitCh_append hpre, splitCh_of_not_mem hb]
  rfl

/-- C5: for every file read successfully as a data URL, `fileToImagePayload`
yields the read string stripped of its data-URL prefix paired with the
file's declared MIME type, and the display formatting reproduces exactly
`data:<mime>;base64,<data>` with both components unchanged. -/
theorem codec_roundtrip (f : MFile)
    (hm : ',' ∉ f.type.data) (hb : ',' ∉ f.base64.data) :
    fileToImagePayload f = ⟨f.base64, f.type⟩ ∧
    decodeToDataUrl (fileToImagePayload f) =
      "data:" ++ f.type ++ ";base64," ++ f.base64 := by
  have h1 : afterComma (readAsDataURL f) = f.base64 := by
    unfold readAsDataURL
    exact afterComma_dataUrl f.type f.base64 hm hb
  constructor
  · unfold fileToImagePayload
    rw [h1]
  · unfold decodeToDataUrl fileToImagePayload
    rw [h1]

/-- Witness for C5: the round trip on a concrete PNG file. -/
theorem codec_roundtrip_witness :
    fileToImagePayload ⟨"QUJD", "image/png", "photo.png"⟩ = ⟨"QUJD", "image/png"⟩ ∧
    decodeToDataUrl (fileToImagePayload ⟨"QUJD", "image/png", "photo.png"⟩) =
      "data:" ++ "image/png" ++ ";base64," ++ "QUJD" :=
  codec_roundtrip ⟨"QUJD", "image/png", "photo.png"⟩ (by decide) (by decide)

lemma firstInlineImage_eq_none {ps : List GPart}
    (h : ∀ p ∈ ps, p.isImage = false) : firstInlineImage ps = none := by
  induction ps with
  | nil => rfl
  | cons p rest ih =>
    cases p with
    | inlineData d =>
      exact absurd (h _ (List.mem_cons_self _ _)) (by simp [GPart.isImage])
    | text t =>
      exact ih (fun q hq => h q (List.mem_cons_of_mem _ hq))

lemma firstInlineImage_append {pre : List GPart} (d : InlineData) (post : List GPart)
    (h : ∀ p ∈ pre, p.isImage = false) :
    firstInlineImage (pre ++ GPart.inlineData d :: post) = some d := by
  induction pre with
  | nil => rfl
  | cons p rest ih =>
    cases p with
    | inlineData e =>
      exact absurd (h _ (List.mem_cons_self _ _)) (by simp [GPart.isImage])
    | text t =>
      rw [List.cons_append]
      exact ih (fun q hq => h q (List.mem_cons_of_mem _ hq))

/-- C6: the response-image extraction returns the first inline-image part
of the first candidate's ordered parts list, ignoring everything after it,
and returns the no-image outcome when the candidate list is empty or no
part carries inline image data. -/
theorem first_image_part_wins (r : GenResponse) :
    (r.candidates = [] → getResponseImage r = none) ∧
    (∀ c rest ct ps, r.candidates = c :: rest → c.content = some ct →
      ct.parts = some ps →
      ((∀ p ∈ ps, p.isImage = false) → getResponseImage r = none) ∧
      (∀ pre d post, ps = pre ++ GPart.inlineData d :: post →
        (∀ p ∈ pre, p.isImage = false) → getResponseImage r = some d)) := by
  constructor
  · intro h
    unfold getResponseImage
    rw [h]
  · intro c rest ct ps hc hct hps
    constructor
    · intro hall
      unfold getResponseImage
      rw [hc]
      dsimp only
      rw [hct]
      dsimp only
      rw [hps]
      exact firstInlineImage_eq_none hall
    · intro pre d post hsplit hpre
      unfold getResponseImage
      rw [hc]
      dsimp only
      rw [hct]
      dsimp only
      rw [hps]
      dsimp only
      rw [hsplit]
      exact firstInlineImage_append d post hpre

/-- Response with a text part, then two inline images, used to witness the
order-dependent extraction. -/
def twoImageResp : GenResponse :=
  ⟨[⟨some ⟨some [GPart.text "x", GPart.inlineData ⟨"image/png", "AAA"⟩,
                 GPart.inlineData ⟨"image/jpeg", "BBB"⟩]⟩⟩], "x"⟩

/-- Witness for C6: the first inline image wins over the later one, and an
empty candidate list yields the no-image outcome. -/
theorem first_image_part_wins_witness :
    getResponseImage twoImageResp = some ⟨"image/png", "AAA"⟩ ∧
    getResponseImage ⟨[], "empty"⟩ = none :=
  ⟨((first_image_part_wins twoImageResp).2 _ _ _ _ rfl rfl rfl).2
      [GPart.text "x"] ⟨"image/png", "AAA"⟩
      [GPart.inlineData ⟨"image/jpeg", "BBB"⟩] rfl (by decide),
   (first_image_part_wins ⟨[], "empty"⟩).1 rfl⟩
